import Mathlib

/-!
Shallow embedding of `src/python-runner.py`, the interactive single-shot
code-execution session.

The evaluation engine (`exec`) is out of scope per the specification: the
submitted code's observable behaviour is modelled as a trace of effects
(`Act`) followed by an outcome (`ExecOutcome`): normal completion, a raised
failure deriving from Python's `Exception` class (the kind the source's
`except Exception` catches), or a raised `BaseException` outside the
`Exception` hierarchy, which that clause does not catch and which escapes
the process.

Machine streams are modelled explicitly: `PyStream` names the four stream
objects in play (the real process stdout/stderr and the two `io.StringIO`
capture buffers), `Sys` carries each stream's contents plus the current
`sys.stdout` / `sys.stderr` bindings and the remaining stdin lines.  Every
function of the source is translated to a pure state transformer on `Sys`.
-/

/-- A protocol message, as built by the dicts in `python-runner.py`
(`print_output`, `print_error`, `request_input`). -/
inductive Message where
  | output (content : String)
  | error (content : String)
  | inputRequest (prompt : String) (sessionId : String)
  deriving DecidableEq

/-- Is this an `error`-kind message? -/
def Message.isError : Message → Bool
  | .error _ => true
  | _ => false

/-- The sixteen lower-case hexadecimal digit characters. -/
def hexDigits : List Char := ("0123456789abcdef").data

/-- One hexadecimal digit, lower case, as produced by the JSON encoder. -/
def hexDigit (n : Nat) : Char := hexDigits.getD n 'f'

/-- A `\uXXXX` escape for a 16-bit code unit, as emitted by `json.dumps`
with its default `ensure_ascii=True`. -/
def uEscape (v : Nat) : List Char :=
  ['\\', 'u', hexDigit (v / 4096 % 16), hexDigit (v / 256 % 16),
   hexDigit (v / 16 % 16), hexDigit (v % 16)]

/-- How `json.dumps` (default options) renders one character inside a JSON
string literal: the two-character escapes for quote, backslash and the named
control characters, `\uXXXX` for the remaining control and non-ASCII
characters (a surrogate pair above the BMP), and the character itself in the
printable-ASCII range. -/
def jsonEscapeChar (c : Char) : List Char :=
  if c = '"' then ("\\\"").data
  else if c = '\\' then ("\\\\").data
  else if c = '\n' then ("\\n").data
  else if c = '\r' then ("\\r").data
  else if c = '\t' then ("\\t").data
  else if c = Char.ofNat 8 then ("\\b").data
  else if c = Char.ofNat 12 then ("\\f").data
  else if c.toNat < 32 ∨ 127 ≤ c.toNat then
    if c.toNat < 65536 then uEscape c.toNat
    else uEscape (55296 + (c.toNat - 65536) / 1024) ++
         uEscape (56320 + (c.toNat - 65536) % 1024)
  else [c]

/-- The body of a JSON string literal for `s`, per `json.dumps`. -/
def jsonEscape (s : String) : String :=
  ⟨s.data.foldr (fun c r => jsonEscapeChar c ++ r) []⟩

/-- The single line `json.dumps(message)` produces for each message dict of
the source (Python 3 dicts preserve insertion order, and `json.dumps`
separates items with a comma-space and keys with a colon-space). -/
def encodeMessage : Message → String
  | .output c =>
      "\x7b\"type\": \"output\", \"content\": \"" ++ jsonEscape c ++ "\"\x7d"
  | .error c =>
      "\x7b\"type\": \"error\", \"content\": \"" ++ jsonEscape c ++ "\"\x7d"
  | .inputRequest p sid =>
      "\x7b\"type\": \"input_request\", \"prompt\": \"" ++ jsonEscape p ++
      "\", \"sessionId\": \"" ++ jsonEscape sid ++ "\"\x7d"

theorem hexDigit_ne_newline (n : Nat) : hexDigit n ≠ '\n' := by
  unfold hexDigit
  rcases Nat.lt_or_ge n hexDigits.length with h | h
  · rw [List.getD_eq_getElem _ _ h]
    intro hc
    have : '\n' ∈ hexDigits := hc ▸ List.getElem_mem h
    revert this
    decide
  · rw [List.getD_eq_default _ _ h]
    decide

theorem newline_not_mem_uEscape (v : Nat) : '\n' ∉ uEscape v := by
  intro h
  simp only [uEscape, List.mem_cons, List.not_mem_nil, or_false] at h
  rcases h with h | h | h | h | h | h
  · exact absurd h (by decide)
  · exact absurd h (by decide)
  · exact (hexDigit_ne_newline _) h.symm
  · exact (hexDigit_ne_newline _) h.symm
  · exact (hexDigit_ne_newline _) h.symm
  · exact (hexDigit_ne_newline _) h.symm

theorem newline_not_mem_jsonEscapeChar (c : Char) : '\n' ∉ jsonEscapeChar c := by
  unfold jsonEscapeChar
  split_ifs with h1 h2 h3 h4 h5 h6 h7 h8 h9
  · decide
  · decide
  · decide
  · decide
  · decide
  · decide
  · decide
  · exact newline_not_mem_uEscape _
  · intro hm
    rcases List.mem_append.mp hm with hm | hm
    · exact newline_not_mem_uEscape _ hm
    · exact newline_not_mem_uEscape _ hm
  · intro hm
    rcases List.mem_singleton.mp hm with rfl
    exact h3 rfl

theorem newline_not_mem_jsonEscape (s : String) : '\n' ∉ (jsonEscape s).data := by
  show '\n' ∉ s.data.foldr (fun c r => jsonEscapeChar c ++ r) []
  induction s.data with
  | nil => simp
  | cons c cs ih =>
    simp only [List.foldr_cons, List.mem_append, not_or]
    exact ⟨newline_not_mem_jsonEscapeChar c, ih⟩

/-- The four stream objects in play during a run: the real process stdout and
stderr, and the two `io.StringIO` capture buffers created in `execute_code`. -/
inductive PyStream where
  | realStdout
  | realStderr
  | capOut
  | capErr
  deriving DecidableEq

/-- The observable machine state: the contents of each stream, the current
`sys.stdout` / `sys.stderr` bindings, and the lines remaining on stdin.

`realOut` is the sequence of protocol message lines printed to the real
process stdout (each entry is one flushed `json.dumps` line, kept as the
`Message` it encodes; `encodeMessage` relates the two).  `realErrLines` holds
diagnostic lines printed to the real process stderr.  `realOutRaw` and
`realErrRaw` hold raw (unframed) writes to the real streams.  `capOut` and
`capErr` are the `stdout_capture` / `stderr_capture` buffer contents.
`stdinLines` is the list of results `readline` will return, in order, each
including its trailing terminator (the last may lack one); the empty list is
end-of-stream. -/
structure Sys where
  realOut : List Message
  realErrLines : List String
  realOutRaw : String
  realErrRaw : String
  capOut : String
  capErr : String
  stdoutBind : PyStream
  stderrBind : PyStream
  stdinLines : List String
  deriving DecidableEq

/-- `print(json.dumps(message), file=target, flush=True)`: one line, written
and flushed to `target`.  On a real stream the parent receives one protocol
line; on a capture stream the encoded text plus the newline added by `print`
lands in the buffer. -/
def printMessage (target : PyStream) (m : Message) (s : Sys) : Sys :=
  match target with
  | .realStdout => { s with realOut := s.realOut ++ [m] }
  | .realStderr => { s with realErrLines := s.realErrLines ++ [encodeMessage m] }
  | .capOut => { s with capOut := s.capOut ++ encodeMessage m ++ "\n" }
  | .capErr => { s with capErr := s.capErr ++ encodeMessage m ++ "\n" }

/-- A raw `.write(text)` on a stream object (no framing, no added newline). -/
def rawWrite (target : PyStream) (text : String) (s : Sys) : Sys :=
  match target with
  | .realStdout => { s with realOutRaw := s.realOutRaw ++ text }
  | .realStderr => { s with realErrRaw := s.realErrRaw ++ text }
  | .capOut => { s with capOut := s.capOut ++ text }
  | .capErr => { s with capErr := s.capErr ++ text }

/-- `sys.stdin.readline()` / `self.original_stdin.readline()`: the next line
including its terminator, or the empty string at end-of-stream. -/
def readline (s : Sys) : String × Sys :=
  match s.stdinLines with
  | [] => ("", s)
  | l :: rest => (l, { s with stdinLines := rest })

/-- Python whitespace, for `str.strip()`: the characters `str.isspace()`
accepts — tab through carriage return (U+0009–U+000D), space, the
separator controls U+001C–U+001F, next line U+0085, no-break space U+00A0,
ogham space mark U+1680, the Unicode space separators U+2000–U+200A, line
and paragraph separators U+2028/U+2029, narrow no-break space U+202F,
medium mathematical space U+205F, and ideographic space U+3000. -/
def isPySpace (c : Char) : Bool :=
  let n := c.toNat
  (9 ≤ n && n ≤ 13) || n == 32 || (28 ≤ n && n ≤ 31) ||
  n == 133 || n == 160 || n == 5760 ||
  (8192 ≤ n && n ≤ 8202) || n == 8232 || n == 8233 ||
  n == 8239 || n == 8287 || n == 12288

/-- Python `str.strip()`: remove leading and trailing whitespace. -/
def pyStrip (s : String) : String :=
  ⟨((s.data.dropWhile isPySpace).reverse.dropWhile isPySpace).reverse⟩

/-- Python `str.rstrip('\n')`: remove every trailing newline character. -/
def rstripNewlines (s : String) : String :=
  ⟨(s.data.reverse.dropWhile (fun c => c == '\n')).reverse⟩

/-- The `InteractiveIO` object: the session id plus the stream objects
snapshotted from `sys.stdout` / `sys.stderr` in `__init__`. -/
structure InteractiveIO where
  session_id : String
  original_stdout : PyStream
  original_stderr : PyStream
  deriving DecidableEq

/-- `InteractiveIO(session_id)`: `__init__` records the session id and the
stream objects currently bound to `sys.stdout` / `sys.stderr`. -/
def InteractiveIO.make (session_id : String) (s : Sys) : InteractiveIO :=
  ⟨session_id, s.stdoutBind, s.stderrBind⟩

/-- `InteractiveIO.print_output`: send one `output` message to the frontend
on the stream saved at construction. -/
def InteractiveIO.print_output (h : InteractiveIO) (text : String) (s : Sys) : Sys :=
  printMessage h.original_stdout (Message.output text) s

/-- `InteractiveIO.print_error`: send one `error` message to the frontend on
the stream saved at construction. -/
def InteractiveIO.print_error (h : InteractiveIO) (text : String) (s : Sys) : Sys :=
  printMessage h.original_stdout (Message.error text) s

/-- `InteractiveIO.request_input`: emit one `input_request` message, then
`self.original_stdin.readline().strip()`. -/
def InteractiveIO.request_input (h : InteractiveIO) (prompt : String) (s : Sys) :
    String × Sys :=
  let s1 := printMessage h.original_stdout
    (Message.inputRequest prompt h.session_id) s
  let r := readline s1
  (pyStrip r.1, r.2)

/-- `custom_print` from `create_custom_globals`: join the (already
stringified) arguments with `sep`, append `end`, strip every trailing
newline, and send the result as one `output` message.  The `file` and
`flush` parameters are accepted, as in the source signature, and unused. -/
def custom_print (io_handler : InteractiveIO) (args : List String)
    (sep end_ : String) ( file : Option PyStream) ( flush : Bool) (s : Sys) : Sys :=
  let output := String.intercalate sep args ++ end_
  io_handler.print_output (rstripNewlines output) s

/-- `custom_input` from `create_custom_globals`: delegate to
`request_input`. -/
def custom_input (io_handler : InteractiveIO) (prompt : String) (s : Sys) :
    String × Sys :=
  io_handler.request_input prompt s

/-- One observable effect the submitted code can perform during `exec`: a
call to the injected `print`, a call to the injected `input`, or a raw write
to the stream currently bound as `sys.stdout` / `sys.stderr`.  The `print`
arguments are carried after Python's `str()` coercion. -/
inductive Act where
  | print (args : List String) (sep end_ : String) ( file : Option PyStream) ( flush : Bool)
  | input (prompt : String)
  | writeOut (text : String)
  | writeErr (text : String)
  deriving DecidableEq

/-- How the `exec` call ends: normal completion; a raised failure deriving
from Python's `Exception` class, whose `traceback.format_exc()` rendering is
`traceback` (the only kind the source's `except Exception` catches); or a
raised `BaseException` that does NOT derive from `Exception` (`SystemExit`
from `sys.exit`, `KeyboardInterrupt`, a bare `BaseException`), which the
`except` clause does not match.  For the latter, `stderrText` is what the
interpreter prints to the real stderr once the exception reaches top level
(the formatted traceback; empty for `sys.exit` with an integer) and
`exitCode` is the resulting process exit status (the `SystemExit` code, or 1
for other uncaught `BaseException`s). -/
inductive ExecOutcome where
  | normal
  | fault (traceback : String)
  | baseFault (stderrText : String) (exitCode : Nat)
  deriving DecidableEq

/-- The evaluation engine's observable behaviour on one code submission: the
effects performed, then the outcome.  The engine itself is out of scope; a
run is settled for every possible behaviour. -/
structure CodeBehavior where
  acts : List Act
  outcome : ExecOutcome
  deriving DecidableEq

/-- The state change of one effect of the running code: `print` and `input`
go through the injected functions bound to `io_handler`; raw writes go to
whatever stream `sys.stdout` / `sys.stderr` currently binds. -/
def step (io_handler : InteractiveIO) (s : Sys) : Act → Sys
  | Act.print args sep end_ f fl => custom_print io_handler args sep end_ f fl s
  | Act.input prompt => (custom_input io_handler prompt s).2
  | Act.writeOut text => rawWrite s.stdoutBind text s
  | Act.writeErr text => rawWrite s.stderrBind text s

/-- The body of the `exec` call: the code's effects, in order. -/
def runActs (io_handler : InteractiveIO) (s : Sys) (acts : List Act) : Sys :=
  acts.foldl (step io_handler) s

/-- `execute_code(code, session_id)`: construct the `InteractiveIO` handler
(snapshotting the current real streams), create fresh capture buffers,
redirect `sys.stdout` / `sys.stderr` into them for the duration of the
`exec`, restore them on every exit path (the `with` block), then on normal
return flush each non-empty capture buffer as one message, and on a raised
`Exception`-derived fault send the formatted traceback as one `error`
message (the flush code is inside the `try`, after the `exec`, so it does
not run on either raising path).  A `BaseException` not deriving from
`Exception` is NOT matched by `except Exception`: the `with` block still
restores the streams during unwinding, no message is emitted, and the
exception escapes the function — the second component of the result is
`some` of its top-level effect (interpreter stderr text, process exit
status), `none` when `execute_code` returns normally. -/
def execute_code (behavior : CodeBehavior) (session_id : String) (s : Sys) :
    Sys × Option (String × Nat) :=
  let io_handler := InteractiveIO.make session_id s
  let s1 : Sys := { s with capOut := "", capErr := "",
                           stdoutBind := PyStream.capOut,
                           stderrBind := PyStream.capErr }
  let s2 := runActs io_handler s1 behavior.acts
  let s3 : Sys := { s2 with stdoutBind := s.stdoutBind, stderrBind := s.stderrBind }
  match behavior.outcome with
  | ExecOutcome.normal =>
      let stdout_content := s3.capOut
      let s4 := if stdout_content ≠ "" then
                  io_handler.print_output (rstripNewlines stdout_content) s3
                else s3
      let stderr_content := s4.capErr
      (if stderr_content ≠ "" then
        io_handler.print_error (rstripNewlines stderr_content) s4
      else s4, none)
  | ExecOutcome.fault tb => (io_handler.print_error tb s3, none)
  | ExecOutcome.baseFault txt code => (s3, some (txt, code))

/-- The code-intake loop of `main`: accumulate stdin lines until one whose
`strip()` equals the sentinel (that line is dropped), returning the
accumulated lines and the lines remaining after the sentinel. -/
def splitAtSentinel : List String → List String × List String
  | [] => ([], [])
  | l :: ls =>
      if pyStrip l = "__END_OF_CODE__" then ([], ls)
      else
        let p := splitAtSentinel ls
        (l :: p.1, p.2)

/-- The machine state at process start: empty streams, `sys.stdout` /
`sys.stderr` bound to the real process streams, `stdin` holding the parent's
lines. -/
def initSys (stdin : List String) : Sys :=
  ⟨[], [], "", "", "", "", PyStream.realStdout, PyStream.realStderr, stdin⟩

/-- `main()` (named `runnerMain` here; Lean reserves `main`): usage check on
`sys.argv`, code intake until the sentinel, the empty-code error path,
otherwise `execute_code`.  Returns the final machine state and the process
exit status.  `behavior` is the evaluation engine's behaviour on the
submitted code (unused unless execution is reached).  When a
`BaseException` escapes `execute_code` it also propagates through `main` to
the interpreter, which prints its rendering to the real stderr (nothing for
`sys.exit` with an integer) and terminates the process with the
corresponding nonzero status; when `execute_code` returns, the script falls
off the end and exits 0. -/
def runnerMain (argv : List String) (stdin : List String) (behavior : CodeBehavior) :
    Sys × Nat :=
  if argv.length < 2 then
    ({ initSys stdin with
        realErrLines := ["Usage: python-runner.py <session_id>"] }, 1)
  else
    let session_id := argv.getD 1 ""
    let p := splitAtSentinel stdin
    let code := String.join p.1
    let s1 := initSys p.2
    if code = "" then
      (printMessage s1.stdoutBind (Message.error ("No code provided")) s1, 1)
    else
      let r := execute_code behavior session_id s1
      match r.2 with
      | none => (r.1, 0)
      | some pt =>
          ({ r.1 with realErrLines :=
              r.1.realErrLines ++ (if pt.1 = "" then [] else [pt.1]) }, pt.2)

/-- The messages one effect sends on the protocol channel (none for raw
writes; they land in the capture buffers). -/
def actMessages (sid : String) : Act → List Message
  | Act.print args sep end_ _ _ =>
      [Message.output (rstripNewlines (String.intercalate sep args ++ end_))]
  | Act.input prompt => [Message.inputRequest prompt sid]
  | Act.writeOut _ => []
  | Act.writeErr _ => []

/-- All protocol messages the running code emits mid-run, in effect order. -/
def runMessages (sid : String) (acts : List Act) : List Message :=
  acts.foldr (fun a r => actMessages sid a ++ r) []

/-- The concatenation of the code's raw writes to `sys.stdout`. -/
def rawOutOf : List Act → String
  | [] => ""
  | Act.writeOut t :: rest => t ++ rawOutOf rest
  | _ :: rest => rawOutOf rest

/-- The concatenation of the code's raw writes to `sys.stderr`. -/
def rawErrOf : List Act → String
  | [] => ""
  | Act.writeErr t :: rest => t ++ rawErrOf rest
  | _ :: rest => rawErrOf rest

/-- How many times the running code calls the injected `input`. -/
def inputCount : List Act → Nat
  | [] => 0
  | Act.input _ :: rest => inputCount rest + 1
  | _ :: rest => inputCount rest

/-- The handler `execute_code` builds when invoked from `main`: the real
process streams are the ones snapshotted. -/
@[reducible] def realHandler (sid : String) : InteractiveIO :=
  ⟨sid, PyStream.realStdout, PyStream.realStderr⟩

theorem request_input_real (sid prompt : String) (s : Sys) :
    (realHandler sid).request_input prompt s =
      (pyStrip (s.stdinLines.headD ("")),
       { s with realOut := s.realOut ++ [Message.inputRequest prompt sid],
                stdinLines := s.stdinLines.tail }) := by
  obtain ⟨ro, rel, ror, rer, co, ce, sb, eb, si⟩ := s
  cases si <;>
    simp [ InteractiveIO.request_input, printMessage, readline, realHandler]

theorem runMessages_cons (sid : String) (a : Act) (acts : List Act) :
    runMessages sid (a :: acts) = actMessages sid a ++ runMessages sid acts := rfl

theorem realHandler_stdout (sid : String) :
    (realHandler sid).original_stdout = PyStream.realStdout := rfl

theorem runActs_nil (h : InteractiveIO) (s : Sys) : runActs h s [] = s := rfl

theorem runActs_cons (h : InteractiveIO) (s : Sys) (a : Act) (l : List Act) :
    runActs h s (a :: l) = runActs h (step h s a) l := rfl

theorem runActs_real (sid : String) (acts : List Act) :
    ∀ ro rel ror rer co ce si,
    runActs (realHandler sid)
        ⟨ro, rel, ror, rer, co, ce, PyStream.capOut, PyStream.capErr, si⟩ acts =
      ⟨ro ++ runMessages sid acts, rel, ror, rer,
       co ++ rawOutOf acts, ce ++ rawErrOf acts,
       PyStream.capOut, PyStream.capErr, si.drop (inputCount acts)⟩ := by
  induction acts with
  | nil =>
      intro ro rel ror rer co ce si
      simp [runActs_nil, runMessages, rawOutOf, rawErrOf, inputCount]
  | cons a rest ih =>
      intro ro rel ror rer co ce si
      cases a with
      | print args sep end_ f fl =>
          rw [runActs_cons]
          simp only [step, custom_print, InteractiveIO.print_output,
            realHandler_stdout, printMessage]
          rw [ih]
          simp [runMessages_cons, actMessages, rawOutOf, rawErrOf, inputCount,
            List.append_assoc]
      | input prompt =>
          rw [runActs_cons]
          simp only [step, custom_input]
          rw [request_input_real]
          simp only []
          rw [ih]
          simp [runMessages_cons, actMessages, rawOutOf, rawErrOf, inputCount,
            List.append_assoc, ← List.drop_one, List.drop_drop, Nat.add_comm]
      | writeOut t =>
          rw [runActs_cons]
          simp only [step, rawWrite]
          rw [ih]
          simp [runMessages_cons, actMessages, rawOutOf, rawErrOf, inputCount,
            String.append_assoc]
      | writeErr t =>
          rw [runActs_cons]
          simp only [step, rawWrite]
          rw [ih]
          simp [runMessages_cons, actMessages, rawOutOf, rawErrOf, inputCount,
            String.append_assoc]

theorem execute_code_fault (acts : List Act) (tb sid : String)
    (ro : List Message) (rel : List String) (ror rer co ce : String)
    (si : List String) :
    execute_code ⟨acts, ExecOutcome.fault tb⟩ sid
        ⟨ro, rel, ror, rer, co, ce, PyStream.realStdout, PyStream.realStderr, si⟩ =
      (⟨ro ++ runMessages sid acts ++ [Message.error tb], rel, ror, rer,
        rawOutOf acts, rawErrOf acts,
        PyStream.realStdout, PyStream.realStderr, si.drop (inputCount acts)⟩,
       none) := by
  simp only [execute_code, InteractiveIO.make]
  rw [show runActs ⟨sid, PyStream.realStdout, PyStream.realStderr⟩
        ⟨ro, rel, ror, rer, "", "", PyStream.capOut, PyStream.capErr, si⟩ acts =
      _ from runActs_real sid acts ro rel ror rer ("") ("") si]
  simp [ InteractiveIO.print_error, printMessage, List.append_assoc]

theorem execute_code_normal (acts : List Act) (sid : String)
    (ro : List Message) (rel : List String) (ror rer co ce : String)
    (si : List String) :
    execute_code ⟨acts, ExecOutcome.normal⟩ sid
        ⟨ro, rel, ror, rer, co, ce, PyStream.realStdout, PyStream.realStderr, si⟩ =
      (⟨ro ++ runMessages sid acts
          ++ (if rawOutOf acts ≠ "" then
                [Message.output (rstripNewlines (rawOutOf acts))] else [])
          ++ (if rawErrOf acts ≠ "" then
                [Message.error (rstripNewlines (rawErrOf acts))] else []),
        rel, ror, rer, rawOutOf acts, rawErrOf acts,
        PyStream.realStdout, PyStream.realStderr, si.drop (inputCount acts)⟩,
       none) := by
  simp only [execute_code, InteractiveIO.make]
  rw [show runActs ⟨sid, PyStream.realStdout, PyStream.realStderr⟩
        ⟨ro, rel, ror, rer, "", "", PyStream.capOut, PyStream.capErr, si⟩ acts =
      _ from runActs_real sid acts ro rel ror rer ("") ("") si]
  by_cases ho : rawOutOf acts = "" <;> by_cases he : rawErrOf acts = "" <;>
    simp [ho, he, String.empty_append, InteractiveIO.print_output,
      InteractiveIO.print_error, printMessage, List.append_assoc]

theorem execute_code_baseFault (acts : List Act) (txt sid : String)
    (code : Nat) (ro : List Message) (rel : List String) (ror rer co ce : String)
    (si : List String) :
    execute_code ⟨acts, ExecOutcome.baseFault txt code⟩ sid
        ⟨ro, rel, ror, rer, co, ce, PyStream.realStdout, PyStream.realStderr, si⟩ =
      (⟨ro ++ runMessages sid acts, rel, ror, rer,
        rawOutOf acts, rawErrOf acts,
        PyStream.realStdout, PyStream.realStderr, si.drop (inputCount acts)⟩,
       some (txt, code)) := by
  simp only [execute_code, InteractiveIO.make]
  rw [show runActs ⟨sid, PyStream.realStdout, PyStream.realStderr⟩
        ⟨ro, rel, ror, rer, "", "", PyStream.capOut, PyStream.capErr, si⟩ acts =
      _ from runActs_real sid acts ro rel ror rer ("") ("") si]
  simp [String.empty_append]

/-- The spec's words, for comparison (not the source): a string with its one
trailing line terminator removed, every other character preserved. -/
def stripTrailingNewline (s : String) : String :=
  if s.data.getLast? = some '\n' then ⟨s.data.dropLast⟩ else s

/-- The spec's words, for comparison (not the source): the print arguments
joined by the separator, with the terminator appended and then only the
trailing terminator stripped. -/
def specJoinStrip (args : List String) (sep term : String) : String :=
  let full := String.intercalate sep args ++ term
  if term.data ≠ [] ∧ term.data.isSuffixOf full.data then
    ⟨full.data.take (full.data.length - term.data.length)⟩
  else full

theorem runMessages_filter_isError (sid : String) (acts : List Act) :
    (runMessages sid acts).filter Message.isError = [] := by
  induction acts with
  | nil => rfl
  | cons a rest ih =>
      cases a <;> simp [runMessages_cons, actMessages, Message.isError, ih]

/-- The traceback text of the failing run used to exhibit C1. -/
def tb0 : String :=
  "Traceback (most recent call last):\n  File \"<string>\", line 2, in <module>\nZeroDivisionError: division by zero\n"

/-- C1: the claim says raw-stream content captured before a fault is still
flushed as output/error messages before the translated fault message.  On
the code, the flush statements sit inside the `try` after the `exec`, so a
faulting run skips them: here the run wrote "hi\n" to the raw stdout stream
before faulting, the buffer still holds it, yet the only message emitted is
the translated fault — the captured partial output is discarded. -/
theorem C1_fault_discards_captured_output :
    (execute_code ⟨[Act.writeOut ("hi\n")], ExecOutcome.fault tb0⟩ ("s1")
        (initSys [])).1.realOut = [Message.error tb0] ∧
    (execute_code ⟨[Act.writeOut ("hi\n")], ExecOutcome.fault tb0⟩ ("s1")
        (initSys [])).1.capOut = ("hi\n") ∧
    ("hi\n" : String) ≠ ("") :=
  ⟨rfl, rfl, by decide⟩

/-- C2 counterexample: with inbound reply line " Ada \n", `request_input`
returns "Ada", not " Ada " — leading and trailing spaces are NOT preserved,
contradicting the claim that only the trailing line terminator is
stripped. -/
theorem C2_strip_counterexample :
    ((realHandler ("s1")).request_input ("p") (initSys ([" Ada \n"]))).1 = ("Ada") ∧
    ("Ada" : String) ≠ stripTrailingNewline (" Ada \n") :=
  ⟨rfl, by decide⟩

/-- C2 (amended): for every input request, `request_input` emits exactly one
`input_request` message, blocks on exactly one reply line, and returns that
line with leading AND trailing whitespace stripped (Python `str.strip()`,
not just the terminator); if the inbound stream is at end-of-stream it
returns the empty string. -/
theorem C2_request_input_strips_whitespace (sid prompt : String) (s : Sys) :
    ((realHandler sid).request_input prompt s).1 =
      (match s.stdinLines with
       | [] => ""
       | l :: _ => pyStrip l) ∧
    ((realHandler sid).request_input prompt s).2.realOut =
      s.realOut ++ [Message.inputRequest prompt sid] ∧
    ((realHandler sid).request_input prompt s).2.stdinLines = s.stdinLines.tail := by
  rw [request_input_real]
  refine ⟨?_, rfl, rfl⟩
  cases s.stdinLines <;> rfl

/-- C3 counterexample: `custom_print` called on the single argument "a\n"
with the default separator and terminator emits content "a", whereas the
claim (join, append terminator, strip only the trailing terminator) yields
"a\n": the code strips ALL trailing newlines, not only the terminator. -/
theorem C3_terminator_counterexample :
    (custom_print (realHandler ("s1")) (["a\n"]) (" ") ("\n") none false
        (initSys [])).realOut = [Message.output ("a")] ∧
    ("a" : String) ≠ specJoinStrip (["a\n"]) (" ") ("\n") :=
  ⟨rfl, by decide⟩

/-- C3 (amended): every call to the injected output primitive emits exactly
one `output` message regardless of the number of arguments, whose content is
the arguments joined by the separator with the terminator appended and then
ALL trailing newline characters stripped (`str.rstrip('\n')`). -/
theorem C3_custom_print_one_message (sid : String) (args : List String)
    (sep end_ : String) (f : Option PyStream) (fl : Bool) (s : Sys) :
    custom_print (realHandler sid) args sep end_ f fl s =
      { s with realOut := s.realOut ++
          [Message.output (rstripNewlines (String.intercalate sep args ++ end_))] } :=
  rfl

/-- The interpreter's stderr rendering of the uncaught `BaseException` used
to exhibit the C4 counterexample. -/
def tbB : String :=
  "Traceback (most recent call last):\n  File \"<string>\", line 1, in <module>\nBaseException\n"

/-- C4 counterexample: the claim quantifies over ANY failure raised while
executing the submitted code, but the source catches only `except
Exception`.  Submitted code `raise BaseException` raises a failure that does
not derive from `Exception`: it propagates uncaught, the process exits with
status 1 (nonzero), and no `error` protocol message is emitted at all —
refuting both "still exits with status 0" and "translated into exactly one
error message". -/
theorem C4_base_exception_counterexample :
    (runnerMain (("runner") :: ("s1") :: [])
        (("raise BaseException\n") :: ("__END_OF_CODE__\n") :: [])
        ⟨[], ExecOutcome.baseFault tbB 1⟩).2 = 1 ∧
    (runnerMain (("runner") :: ("s1") :: [])
        (("raise BaseException\n") :: ("__END_OF_CODE__\n") :: [])
        ⟨[], ExecOutcome.baseFault tbB 1⟩).1.realOut = [] ∧
    (1 : Nat) ≠ 0 :=
  ⟨rfl, rfl, by decide⟩

/-- C4 (amended): any failure deriving from the engine's ordinary fault
class (Python's `Exception`) raised while executing nonempty submitted code
is caught exactly once and translated into exactly one `error` message
carrying the complete formatted traceback, and the process still exits with
status 0.  (Failures outside that class — `BaseException`s such as
`SystemExit` or `KeyboardInterrupt` — are not caught: they propagate and the
process terminates nonzero without a protocol message, per the
counterexample.) -/
theorem C4_fault_caught_exit_zero (prog sid : String) (argvRest : List String)
    (stdin : List String) (acts : List Act) (tb : String)
    (hcode : String.join (splitAtSentinel stdin).1 ≠ ("")) :
    (runnerMain (prog :: sid :: argvRest) stdin ⟨acts, ExecOutcome.fault tb⟩).2 = 0 ∧
    ((runnerMain (prog :: sid :: argvRest) stdin
        ⟨acts, ExecOutcome.fault tb⟩).1.realOut.filter Message.isError) =
      [Message.error tb] := by
  have hlen : ¬ (prog :: sid :: argvRest).length < 2 := by simp
  simp only [runnerMain, if_neg hlen, if_neg hcode, List.getD_cons_succ,
    List.getD_cons_zero, initSys]
  rw [execute_code_fault]
  refine ⟨by trivial, ?_⟩
  simp [List.filter_append, runMessages_filter_isError, Message.isError]

theorem C4_fault_caught_exit_zero_witness :
    String.join (splitAtSentinel (("1/0\n") :: ("__END_OF_CODE__\n") :: [])).1 ≠ ("") ∧
    ((runnerMain (("runner") :: ("s1") :: [])
        (("1/0\n") :: ("__END_OF_CODE__\n") :: [])
        ⟨[], ExecOutcome.fault tb0⟩).2 = 0 ∧
     ((runnerMain (("runner") :: ("s1") :: [])
        (("1/0\n") :: ("__END_OF_CODE__\n") :: [])
        ⟨[], ExecOutcome.fault tb0⟩).1.realOut.filter Message.isError) =
       [Message.error tb0]) :=
  ⟨by decide, C4_fault_caught_exit_zero ("runner") ("s1") [] _ [] tb0 (by decide)⟩

/-- C6: if no code precedes the sentinel (or the inbound stream ends before
any code arrives), the session emits exactly one `error` message with
content "No code provided" and exits nonzero; the result is independent of
the evaluation engine's behaviour, i.e. the engine is never invoked. -/
theorem C6_no_code_error_exit (prog sid : String) (argvRest stdin : List String)
    (behavior : CodeBehavior)
    (hcode : String.join (splitAtSentinel stdin).1 = ("")) :
    runnerMain (prog :: sid :: argvRest) stdin behavior =
      ({ initSys (splitAtSentinel stdin).2 with
          realOut := [Message.error ("No code provided")] }, 1) := by
  have hlen : ¬ (prog :: sid :: argvRest).length < 2 := by simp
  simp only [runnerMain, if_neg hlen, if_pos hcode, initSys, printMessage]
  rfl

theorem C6_no_code_error_exit_witness :
    String.join (splitAtSentinel ([] : List String)).1 = ("") ∧
    runnerMain (("runner") :: ("s1") :: []) [] ⟨[], ExecOutcome.normal⟩ =
      ({ initSys (splitAtSentinel ([] : List String)).2 with
          realOut := [Message.error ("No code provided")] }, 1) :=
  ⟨rfl, C6_no_code_error_exit ("runner") ("s1") [] [] ⟨[], ExecOutcome.normal⟩ rfl⟩

/-- C5 counterexample: a normal run whose only raw-stream write is "x\n\n"
flushes the message content "x", whereas the claim's "full accumulated
content with the trailing newline stripped" is "x\n": the code strips ALL
trailing newlines from the buffer. -/
theorem C5_strip_counterexample :
    (execute_code ⟨[Act.writeOut ("x\n\n")], ExecOutcome.normal⟩ ("s1")
        (initSys [])).1.realOut = [Message.output ("x")] ∧
    ("x" : String) ≠ stripTrailingNewline ("x\n\n") :=
  ⟨rfl, by decide⟩

/-- C5 (amended): at normal run end, a non-empty captured stdout buffer is
flushed as exactly one `output` message carrying its whole accumulated
content with ALL trailing newline characters stripped, before the analogous
single `error` message for a non-empty stderr buffer; an empty buffer yields
no message. -/
theorem C5_run_end_flush (acts : List Act) (sid : String) (stdin : List String) :
    (execute_code ⟨acts, ExecOutcome.normal⟩ sid (initSys stdin)).1.realOut =
      runMessages sid acts
      ++ (if rawOutOf acts ≠ "" then
            [Message.output (rstripNewlines (rawOutOf acts))] else [])
      ++ (if rawErrOf acts ≠ "" then
            [Message.error (rstripNewlines (rawErrOf acts))] else []) := by
  simp only [initSys]
  rw [execute_code_normal]
  rfl

/-- C7: every protocol message encodes (via `json.dumps`) to a single
self-contained line containing no raw newline character even when its
content fields contain newlines, and each encode is exactly one flushed
write appending exactly one line to the real stdout stream. -/
theorem C7_encode_single_line (m : Message) (s : Sys) :
    ('\n' ∉ (encodeMessage m).data) ∧
    printMessage PyStream.realStdout m s = { s with realOut := s.realOut ++ [m] } := by
  refine ⟨?_, rfl⟩
  cases m with
  | output c =>
      simp only [encodeMessage, String.data_append, List.mem_append, not_or]
      exact ⟨⟨by decide, newline_not_mem_jsonEscape c⟩, by decide⟩
  | error c =>
      simp only [encodeMessage, String.data_append, List.mem_append, not_or]
      exact ⟨⟨by decide, newline_not_mem_jsonEscape c⟩, by decide⟩
  | inputRequest p sid =>
      simp only [encodeMessage, String.data_append, List.mem_append, not_or]
      exact ⟨⟨⟨⟨by decide, newline_not_mem_jsonEscape p⟩, by decide⟩,
             newline_not_mem_jsonEscape sid⟩, by decide⟩

/-- C8: between the emission of an `input_request` and the arrival of its
reply, nothing else is emitted: the complete state change of the blocking
round-trip is exactly one `input_request` message appended to the real
stdout plus the consumption of exactly one reply line — every other channel
(stderr, both capture buffers, the raw streams, the bindings) is unchanged,
and execution (the sequential state transformer) is suspended for the whole
round-trip. -/
theorem C8_input_round_trip_no_interleave (sid prompt : String) (s : Sys) :
    ((realHandler sid).request_input prompt s).2 =
      { s with realOut := s.realOut ++ [Message.inputRequest prompt sid],
               stdinLines := s.stdinLines.tail } := by
  rw [request_input_real]

/-- C9: the handler emits protocol messages on the real stdout snapshotted
at construction, before redirection, so for every run the capture buffers
end holding exactly the raw-stream writes of the code — no protocol message
is ever captured into them — no raw write reaches the real streams, and all
mid-run protocol messages are a prefix of the real-stdout message line
sequence. -/
theorem C9_protocol_capture_disjoint (acts : List Act) (outcome : ExecOutcome)
    (sid : String) (stdin : List String) :
    (execute_code ⟨acts, outcome⟩ sid (initSys stdin)).1.capOut = rawOutOf acts ∧
    (execute_code ⟨acts, outcome⟩ sid (initSys stdin)).1.capErr = rawErrOf acts ∧
    (execute_code ⟨acts, outcome⟩ sid (initSys stdin)).1.realOutRaw = ("") ∧
    (execute_code ⟨acts, outcome⟩ sid (initSys stdin)).1.realErrRaw = ("") ∧
    runMessages sid acts <+:
      (execute_code ⟨acts, outcome⟩ sid (initSys stdin)).1.realOut := by
  cases outcome with
  | normal =>
      simp only [initSys]
      rw [execute_code_normal]
      exact ⟨rfl, rfl, rfl, rfl,
        ⟨(if rawOutOf acts ≠ "" then
            [Message.output (rstripNewlines (rawOutOf acts))] else []) ++
         (if rawErrOf acts ≠ "" then
            [Message.error (rstripNewlines (rawErrOf acts))] else []),
         by simp [List.append_assoc]⟩⟩
  | fault tb =>
      simp only [initSys]
      rw [execute_code_fault]
      exact ⟨rfl, rfl, rfl, rfl,
        ⟨[Message.error tb], by simp [List.append_assoc]⟩⟩
  | baseFault txt code =>
      simp only [initSys]
      rw [execute_code_baseFault]
      exact ⟨rfl, rfl, rfl, rfl, ⟨[], by simp⟩⟩

/-- C10: the injected output primitive accepts but ignores `file` and
`flush`: its result never depends on them, and even when the standard-error
stream (real or captured) is passed as `file` the text still goes out as one
`output` message on the protocol channel, leaving both capture buffers
untouched. -/
theorem C10_print_ignores_file_flush (sid : String) (args : List String)
    (sep end_ : String) (f f2 : Option PyStream) (fl fl2 : Bool) (s : Sys) :
    custom_print (realHandler sid) args sep end_ f fl s =
      custom_print (realHandler sid) args sep end_ f2 fl2 s ∧
    (custom_print (realHandler sid) args sep end_ (some PyStream.realStderr) true s).capOut
      = s.capOut ∧
    (custom_print (realHandler sid) args sep end_ (some PyStream.capErr) true s).capErr
      = s.capErr ∧
    (custom_print (realHandler sid) args sep end_ (some PyStream.realStderr) true s).realOut
      = s.realOut ++
        [Message.output (rstripNewlines (String.intercalate sep args ++ end_))] :=
  ⟨rfl, rfl, rfl, rfl⟩
